import Mathlib

/-!
Shallow embedding of the request/authentication orchestration layer in
src/src/utils/request.ts: the credential store (authStore, lines 19-35),
configuration merging (mergeConfig, lines 196-203), the retry loop
(handleRequest, lines 116-143), the header construction of the transport
wrapper (wxRequest, lines 174-193) and the single-flight refresh protocol
(handleTokenExpired, lines 146-171; refreshToken, lines 76-92).

External capabilities (the wx transport, the platform login handshake and
the inner unauthenticated requests of the Login and Refresh flows) are
modelled as oracles: a function giving the outcome of the n-th transport
send, an Except value for the result of the Login Flow exchange, and an
Except value for the result of the Refresh Flow exchange. Persistent
storage is the Option String field of the store state; wx.getStorageSync
on a missing key yields the empty string.
-/

/-- Response envelope shape (lines 12-16 of request.ts). -/
structure ResponseData (T : Type) where
  code : Nat
  data : T
  message : String
deriving DecidableEq

/-- State of authStore (lines 19-35): the in-memory token and the
persisted value under the storage key token (none when absent). -/
structure AuthStore where
  token : String
  storage : Option String
deriving DecidableEq

/-- wx.getStorageSync for the token key: the stored value, or the empty
string when the key is absent. -/
def wxGetStorageSync (s : Option String) : String :=
  s.getD ""

/-- authStore.getToken (lines 25-30): if the in-memory token is falsy
(empty), load it from storage and cache it; return the token. The Bool
reports whether persistent storage was accessed by this call. -/
def AuthStore.getToken (st : AuthStore) : String × AuthStore × Bool :=
  if st.token = "" then
    let t := wxGetStorageSync st.storage
    (t, { st with token := t }, true)
  else
    (st.token, st, false)

/-- authStore.setToken (lines 21-24): update the in-memory value and
persist it synchronously. -/
def AuthStore.setToken (_st : AuthStore) (t : String) : AuthStore :=
  { token := t, storage := some t }

/-- authStore.clearToken (lines 31-34): reset the in-memory value to the
empty string and remove the persisted value. -/
def AuthStore.clearToken (_st : AuthStore) : AuthStore :=
  { token := "", storage := none }

/-- Iterate getToken n times from a store state, returning the final
store and the number of persistent-storage accesses performed. -/
def getTokenCalls : Nat → AuthStore → AuthStore × Nat
  | 0, st => (st, 0)
  | n + 1, st =>
    let g := st.getToken
    let rest := getTokenCalls n g.2.1
    (rest.1, (if g.2.2 then 1 else 0) + rest.2)

/-- Caller-supplied request configuration (lines 5-9). A field is none
when the caller omitted the key, so that the object spread in mergeConfig
keeps the default. -/
structure RequestConfig where
  url : String
  header : List (String × String) := []
  loading : Option Bool := none
  auth : Option Bool := none
  retry : Option Nat := none
deriving DecidableEq

/-- Configuration after the merge with defaults. -/
structure FinalConfig where
  url : String
  header : List (String × String)
  loading : Bool
  auth : Bool
  retry : Nat
deriving DecidableEq

/-- MAX_RETRY_COUNT (line 40). -/
def MAX_RETRY_COUNT : Nat := 3

/-- mergeConfig (lines 196-203): the spread of the caller config over the
defaults loading=false, auth=true, retry=MAX_RETRY_COUNT; a key present in
the caller config wins. -/
def mergeConfig (c : RequestConfig) : FinalConfig :=
  { url := c.url
    header := c.header
    loading := c.loading.getD false
    auth := c.auth.getD true
    retry := c.retry.getD MAX_RETRY_COUNT }

/-- The retry bound of line 138, config.retry with the falsy-or fallback
to MAX_RETRY_COUNT: a retry value of 0 is falsy in the source language, so
the bound falls back to the default. -/
def effectiveRetry (c : FinalConfig) : Nat :=
  if c.retry = 0 then MAX_RETRY_COUNT else c.retry

/-- Header-object lookup with spread semantics: a later entry for the same
key overrides an earlier one. -/
def hdrLookup (h : List (String × String)) (k : String) : Option String :=
  h.foldl (fun acc p => if p.1 = k then some p.2 else acc) none

/-- The header object built by wxRequest (lines 180-184): the caller
headers spread first, then Authorization (a bearer value read from the
store when auth is set, the empty string otherwise) and Content-Type.
Returns the header entries in spread order, the store after the
conditional getToken read, and the number of getToken calls made. -/
def wxRequestHeader (c : FinalConfig) (st : AuthStore) :
    List (String × String) × AuthStore × Nat :=
  if c.auth then
    let g := st.getToken
    (c.header ++ [("Authorization", "Bearer " ++ g.1), ("Content-Type", "application/json")],
     g.2.1, 1)
  else
    (c.header ++ [("Authorization", ""), ("Content-Type", "application/json")], st, 0)

/-- Oracle for the external effects of one orchestrated call: the outcome
of the n-th transport send (an envelope, or a rejected promise carrying a
transport error message), and the outcome of the Login Flow exchange
(lines 58-73, whose inner unauthenticated request is abstracted as its
result: the token granted by the server, or the error thrown). -/
structure SendEnv (T : Type) where
  send : Nat → Except String (ResponseData T)
  loginResult : Except String String

/-- Error taxonomy of the orchestrator. -/
inductive ReqError where
  | loginError (e : String)
  | transportError (e : String)
  | appError (msg : String)
  | refreshError (e : String)
deriving DecidableEq

/-- The message of the generic failure thrown on line 135:
response.message with the falsy-or fallback. -/
def appErrorMessage (m : String) : String :=
  if m = "" then "请求失败" else m

/-- Outcome of one body of the try block of handleRequest (lines 117-135):
a code-200 envelope returned, a code-401 handoff to handleTokenExpired
(returned without await, hence not subject to the catch), or an error
thrown into the catch. -/
inductive AttemptOut (T : Type) where
  | ok (envl : ResponseData T)
  | expired
  | err (e : ReqError)
deriving DecidableEq

/-- Result of a full handleRequest run. -/
inductive ReqOutcome (T : Type) where
  | success (envl : ResponseData T)
  | failure (e : ReqError)
  | handedToRefresh
deriving DecidableEq

/-- Accounting of one handleRequest run: its outcome, the store state
after it, the number of wxRequest sends, the number of Login Flow
invocations, and the number of credential-store operations (getToken,
setToken, clearToken) performed. -/
structure RunResult (T : Type) where
  outcome : ReqOutcome T
  store : AuthStore
  sends : Nat
  logins : Nat
  storeOps : Nat
deriving DecidableEq

/-- The send and envelope dispatch of lines 123-135: one wxRequest call
(building the header, reading the store when auth is set) settled with the
transport outcome of the oracle. Returns the attempt outcome, the store
after the call, and the number of getToken calls made by wxRequest. -/
def sendPhase {T : Type} (env : SendEnv T) (c : FinalConfig) (si : Nat) (st : AuthStore) :
    AttemptOut T × AuthStore × Nat :=
  let hr := wxRequestHeader c st
  match env.send si with
  | Except.error e => (AttemptOut.err (ReqError.transportError e), hr.2.1, hr.2.2)
  | Except.ok envl =>
    if envl.code = 200 then (AttemptOut.ok envl, hr.2.1, hr.2.2)
    else if envl.code = 401 then (AttemptOut.expired, hr.2.1, hr.2.2)
    else (AttemptOut.err (ReqError.appError (appErrorMessage envl.message)), hr.2.1, hr.2.2)

/-- One body of the try block of handleRequest (lines 117-135): the auth
guard of line 119 (getToken is only called when config.auth is set, and
login only when the token is empty; a successful login stores the granted
token, line 67), then the send. Returns (outcome, store, sends, logins,
store operations). -/
def attemptOnce {T : Type} (env : SendEnv T) (c : FinalConfig) (si : Nat) (st : AuthStore) :
    AttemptOut T × AuthStore × Nat × Nat × Nat :=
  if c.auth then
    let g := st.getToken
    if g.1 = "" then
      match env.loginResult with
      | Except.error e => (AttemptOut.err (ReqError.loginError e), g.2.1, 0, 1, 1)
      | Except.ok t =>
        let sp := sendPhase env c si (g.2.1.setToken t)
        (sp.1, sp.2.1, 1, 1, 2 + sp.2.2)
    else
      let sp := sendPhase env c si g.2.1
      (sp.1, sp.2.1, 1, 0, 1 + sp.2.2)
  else
    let sp := sendPhase env c si st
    (sp.1, sp.2.1, 1, 0, sp.2.2)

/-- The recursion of handleRequest (lines 116-143). The source counts
retryCount upward and recurses while retryCount is below the bound of
line 138; here remaining = bound - retryCount counts the retries still
allowed, which is the same loop in structural form. A code-200 envelope
and the code-401 handoff are returned directly (the handoff on line 132 is
a return without await, so its rejection bypasses the catch); a thrown
error is retried while retries remain, and surfaced once they are
exhausted. si threads the index of the next transport send. -/
def handleRequestGo {T : Type} (env : SendEnv T) (c : FinalConfig) :
    Nat → Nat → AuthStore → RunResult T
  | remaining, si, st =>
    let att := attemptOnce env c si st
    match att.1 with
    | AttemptOut.ok envl =>
      ⟨ReqOutcome.success envl, att.2.1, att.2.2.1, att.2.2.2.1, att.2.2.2.2⟩
    | AttemptOut.expired =>
      ⟨ReqOutcome.handedToRefresh, att.2.1, att.2.2.1, att.2.2.2.1, att.2.2.2.2⟩
    | AttemptOut.err e =>
      match remaining with
      | 0 => ⟨ReqOutcome.failure e, att.2.1, att.2.2.1, att.2.2.2.1, att.2.2.2.2⟩
      | r + 1 =>
        let res := handleRequestGo env c r (si + att.2.2.1) att.2.1
        ⟨res.outcome, res.store, att.2.2.1 + res.sends,
         att.2.2.2.1 + res.logins, att.2.2.2.2 + res.storeOps⟩

/-- handleRequest entered with retryCount = 0 (line 116). -/
def handleRequest {T : Type} (env : SendEnv T) (c : FinalConfig) (st : AuthStore) :
    RunResult T :=
  handleRequestGo env c (effectiveRetry c) 0 st

/-- The public request method (lines 95-113): merge the configuration and
run handleRequest (the loading hooks touch no state modelled here). -/
def request {T : Type} (env : SendEnv T) (c : RequestConfig) (st : AuthStore) :
    RunResult T :=
  handleRequest env (mergeConfig c) st

/-- Orchestrator-wide singleton state (lines 44-45): the single-flight
flag, the retry queue of deferred closures (each captures the config it
will resubmit), and the credential store. -/
structure OrchState where
  isRefreshing : Bool
  retryQueue : List FinalConfig
  store : AuthStore
deriving DecidableEq

/-- Observable events of the refresh protocol, in execution order. -/
inductive RefreshEv where
  | setRefreshing (b : Bool)
  | refreshCall
  | refreshSetToken (t : String)
  | refreshClearToken
  | enqueue (c : FinalConfig)
  | resubmit (c : FinalConfig)
  | clearQueue
  | retryOwn (c : FinalConfig)
deriving DecidableEq

/-- Result of handleTokenExpired for the calling request: its promise is
left pending in the queue, or it is retried as a new request call after a
successful refresh, or it fails with the refresh error. -/
inductive ExpiredResult where
  | queuedPending
  | retriedOwn (c : FinalConfig)
  | failed (e : ReqError)
deriving DecidableEq

/-- The synchronous section of handleTokenExpired up to the await of
refreshToken (lines 147-156): a request observing the 401 while a refresh
is in flight pushes a deferred closure onto the queue and waits; otherwise
it sets isRefreshing and starts the Refresh Flow. The Bool reports whether
this request started the refresh. -/
def expireBegin (c : FinalConfig) (s : OrchState) : OrchState × List RefreshEv × Bool :=
  if s.isRefreshing then
    ({ s with retryQueue := s.retryQueue ++ [c] }, [RefreshEv.enqueue c], false)
  else
    ({ s with isRefreshing := true },
     [RefreshEv.setRefreshing true, RefreshEv.refreshCall], true)

/-- The continuation of handleTokenExpired once refreshToken settles
(lines 158-170, with the store effects of refreshToken, lines 86-90). On
success: the new token is stored, isRefreshing is reset, the queue is
drained in FIFO order (each entry resubmitted as a brand-new request
call), the queue is cleared, and the own request is retried. On failure:
the credential is cleared, isRefreshing is reset, the queue is discarded
without invoking any entry, and the error is rethrown. -/
def expireComplete (refreshRes : Except String String) (c : FinalConfig) (s : OrchState) :
    OrchState × List RefreshEv × ExpiredResult :=
  match refreshRes with
  | Except.ok tok =>
    ( { isRefreshing := false, retryQueue := [], store := s.store.setToken tok },
      [RefreshEv.refreshSetToken tok, RefreshEv.setRefreshing false]
        ++ s.retryQueue.map RefreshEv.resubmit
        ++ [RefreshEv.clearQueue, RefreshEv.retryOwn c],
      ExpiredResult.retriedOwn c )
  | Except.error e =>
    ( { isRefreshing := false, retryQueue := [], store := s.store.clearToken },
      [RefreshEv.refreshClearToken, RefreshEv.setRefreshing false, RefreshEv.clearQueue],
      ExpiredResult.failed (ReqError.refreshError e) )

/-- handleTokenExpired (lines 146-171) run without interleaving: the
synchronous observation followed, when this request started the refresh,
by the completion of the Refresh Flow with the given outcome. -/
def handleTokenExpired (refreshRes : Except String String) (c : FinalConfig) (s : OrchState) :
    OrchState × List RefreshEv × ExpiredResult :=
  let b := expireBegin c s
  if b.2.2 then
    let r := expireComplete refreshRes c b.1
    (r.1, b.2.1 ++ r.2.1, r.2.2)
  else
    (b.1, b.2.1, ExpiredResult.queuedPending)

/-- A sequence of requests observing a 401 one after the other under the
cooperative scheduler, each running the synchronous section of
handleTokenExpired; collects the started flags in order. -/
def observeAll : List FinalConfig → OrchState → OrchState × List RefreshEv × List Bool
  | [], s => (s, [], [])
  | c :: rest, s =>
    let b := expireBegin c s
    let r := observeAll rest b.1
    (r.1, b.2.1 ++ r.2.1, b.2.2 :: r.2.2)

/-- Outcome of one orchestrated call composed with the refresh protocol. -/
inductive FlowOutcome (T : Type) where
  | success (envl : ResponseData T)
  | failure (e : ReqError)
  | pendingQueued
  | retriedOwn (c : FinalConfig)
deriving DecidableEq

/-- Result of one orchestrated call composed with the refresh protocol. -/
structure FlowResult (T : Type) where
  outcome : FlowOutcome T
  orch : OrchState
  sends : Nat
  logins : Nat
  refreshEvs : List RefreshEv
deriving DecidableEq

/-- request composed with the 401 handoff of line 132: when handleRequest
hands over to handleTokenExpired, the refresh protocol runs on the shared
orchestrator state; its rejection propagates to the caller without
re-entering the retry loop (the handoff is returned without await). -/
def requestWithRefresh {T : Type} (env : SendEnv T) (refreshRes : Except String String)
    (c : RequestConfig) (s : OrchState) : FlowResult T :=
  let fc := mergeConfig c
  let r := handleRequest env fc s.store
  match r.outcome with
  | ReqOutcome.success envl =>
    ⟨FlowOutcome.success envl, { s with store := r.store }, r.sends, r.logins, []⟩
  | ReqOutcome.failure e =>
    ⟨FlowOutcome.failure e, { s with store := r.store }, r.sends, r.logins, []⟩
  | ReqOutcome.handedToRefresh =>
    let h := handleTokenExpired refreshRes fc { s with store := r.store }
    match h.2.2 with
    | ExpiredResult.queuedPending =>
      ⟨FlowOutcome.pendingQueued, h.1, r.sends, r.logins, h.2.1⟩
    | ExpiredResult.retriedOwn cfg =>
      ⟨FlowOutcome.retriedOwn cfg, h.1, r.sends, r.logins, h.2.1⟩
    | ExpiredResult.failed e =>
      ⟨FlowOutcome.failure e, h.1, r.sends, r.logins, h.2.1⟩

/-! ## Derived forms and helper lemmas -/

/-- The attempt outcome determined by the send oracle alone (the dispatch
of lines 126-135). -/
def outOf {T : Type} (env : SendEnv T) (si : Nat) : AttemptOut T :=
  match env.send si with
  | Except.error e => AttemptOut.err (ReqError.transportError e)
  | Except.ok envl =>
    if envl.code = 200 then AttemptOut.ok envl
    else if envl.code = 401 then AttemptOut.expired
    else AttemptOut.err (ReqError.appError (appErrorMessage envl.message))

/-- The n-th send neither succeeds nor reports an expired credential: a
transport failure, or an envelope whose code is neither 200 nor 401. -/
def sendFails {T : Type} (env : SendEnv T) (n : Nat) : Prop :=
  match env.send n with
  | Except.error _ => True
  | Except.ok envl => envl.code ≠ 200 ∧ envl.code ≠ 401

/-- The error a failing n-th send throws into the catch of line 136. -/
def errOf {T : Type} (env : SendEnv T) (n : Nat) : ReqError :=
  match env.send n with
  | Except.error e => ReqError.transportError e
  | Except.ok envl => ReqError.appError (appErrorMessage envl.message)

/-- The auth guard of line 119 lets the attempt reach the transport send:
auth is off, or a token is available after the getToken read, or the Login
Flow succeeds. -/
def reachesSend {T : Type} (env : SendEnv T) (c : FinalConfig) (st : AuthStore) : Prop :=
  c.auth = false ∨ st.getToken.1 ≠ "" ∨ (∃ t, env.loginResult = Except.ok t)

lemma getToken_nonempty {st : AuthStore} (h : st.token ≠ "") :
    st.getToken = (st.token, st, false) := by
  unfold AuthStore.getToken
  simp [h]

lemma getToken_empty {st : AuthStore} (h : st.token = "") :
    st.getToken = (wxGetStorageSync st.storage,
      { st with token := wxGetStorageSync st.storage }, true) := by
  unfold AuthStore.getToken
  simp [h]

lemma sendPhase_eq {T : Type} (env : SendEnv T) (c : FinalConfig) (si : Nat) (st : AuthStore) :
    sendPhase env c si st =
      (outOf env si, (wxRequestHeader c st).2.1, (wxRequestHeader c st).2.2) := by
  unfold sendPhase outOf
  cases env.send si with
  | error e => rfl
  | ok envl =>
    by_cases h2 : envl.code = 200
    · simp [h2]
    · by_cases h4 : envl.code = 401 <;> simp [h2, h4]

lemma attemptOnce_noauth {T : Type} (env : SendEnv T) {c : FinalConfig} (si : Nat)
    (st : AuthStore) (h : c.auth = false) :
    attemptOnce env c si st = (outOf env si, st, 1, 0, 0) := by
  unfold attemptOnce
  simp [h, sendPhase_eq, wxRequestHeader]

lemma attemptOnce_tok {T : Type} (env : SendEnv T) {c : FinalConfig} (si : Nat)
    {st : AuthStore} (h : c.auth = true) (ht : st.token ≠ "") :
    attemptOnce env c si st = (outOf env si, st, 1, 0, 2) := by
  unfold attemptOnce
  simp [h, getToken_nonempty ht, ht, sendPhase_eq, wxRequestHeader]

lemma attemptOnce_loginFail {T : Type} (env : SendEnv T) {c : FinalConfig} (si : Nat)
    {st : AuthStore} {e : String}
    (h : c.auth = true) (ht : st.token = "") (hs : wxGetStorageSync st.storage = "")
    (hlogin : env.loginResult = Except.error e) :
    attemptOnce env c si st = (AttemptOut.err (ReqError.loginError e), st, 0, 1, 1) := by
  obtain ⟨tok, stor⟩ := st
  simp only at ht hs
  subst ht
  unfold attemptOnce
  simp [h, AuthStore.getToken, hs, hlogin]

lemma attemptOnce_reach_proj {T : Type} (env : SendEnv T) {c : FinalConfig} (si : Nat)
    {st : AuthStore} (h : reachesSend env c st) :
    (attemptOnce env c si st).1 = outOf env si ∧
    (attemptOnce env c si st).2.2.1 = 1 := by
  unfold attemptOnce
  by_cases hA : c.auth = true
  · by_cases hg : st.getToken.1 = ""
    · obtain ⟨t, hok⟩ : ∃ t, env.loginResult = Except.ok t := by
        rcases h with h | h | h
        · rw [h] at hA; exact absurd hA (by simp)
        · exact absurd hg h
        · exact h
      simp [hA, hg, hok, sendPhase_eq]
    · simp [hA, hg, sendPhase_eq]
  · have hA2 : c.auth = false := by revert hA; cases c.auth <;> simp
    simp [hA2, sendPhase_eq]

lemma outOf_err {T : Type} (env : SendEnv T) (n : Nat) (h : sendFails env n) :
    outOf env n = AttemptOut.err (errOf env n) := by
  unfold outOf errOf
  unfold sendFails at h
  cases hs : env.send n with
  | error e => rfl
  | ok envl =>
    rw [hs] at h
    simp [h.1, h.2]

lemma handleRequestGo_allErr {T : Type} (env : SendEnv T) (c : FinalConfig) (st : AuthStore)
    (f : Nat → ReqError) (a b d : Nat)
    (hatt : ∀ si, attemptOnce env c si st = (AttemptOut.err (f si), st, a, b, d)) :
    ∀ rem si, handleRequestGo env c rem si st =
      ⟨ReqOutcome.failure (f (si + rem * a)), st, (rem + 1) * a, (rem + 1) * b,
       (rem + 1) * d⟩ := by
  intro rem
  induction rem with
  | zero =>
    intro si
    unfold handleRequestGo
    rw [hatt si]
    simp
  | succ n ih =>
    intro si
    unfold handleRequestGo
    rw [hatt si]
    simp only []
    rw [ih (si + a)]
    have e1 : si + a + n * a = si + (n + 1) * a := by ring
    have e2 : a + (n + 1) * a = (n + 1 + 1) * a := by ring
    have e3 : b + (n + 1) * b = (n + 1 + 1) * b := by ring
    have e4 : d + (n + 1) * d = (n + 1 + 1) * d := by ring
    simp [e1, e2, e3, e4]

lemma handleRequestGo_noauth {T : Type} (env : SendEnv T) {c : FinalConfig}
    (h : c.auth = false) :
    ∀ rem si st, (handleRequestGo env c rem si st).storeOps = 0 ∧
      (handleRequestGo env c rem si st).logins = 0 := by
  intro rem
  induction rem with
  | zero =>
    intro si st
    unfold handleRequestGo
    rw [attemptOnce_noauth env si st h]
    cases houtOf : outOf env si <;> simp
  | succ n ih =>
    intro si st
    unfold handleRequestGo
    rw [attemptOnce_noauth env si st h]
    cases houtOf : outOf env si <;> simp [ih]

lemma getTokenCalls_cached {st : AuthStore} (h : st.token ≠ "") :
    ∀ n, getTokenCalls n st = (st, 0) := by
  intro n
  induction n with
  | zero => rfl
  | succ m ih =>
    unfold getTokenCalls
    rw [getToken_nonempty h]
    simp [ih]

lemma getTokenCalls_none :
    ∀ n (stor : Option String), wxGetStorageSync stor = "" →
      getTokenCalls n (AuthStore.mk "" stor) = (AuthStore.mk "" stor, n) := by
  intro n
  induction n with
  | zero => intro stor _; rfl
  | succ m ih =>
    intro stor hs
    unfold getTokenCalls
    simp [AuthStore.getToken, hs, ih stor hs]
    omega

lemma wxRequestHeader_ct (c : FinalConfig) (st : AuthStore) :
    hdrLookup (wxRequestHeader c st).1 "Content-Type" = some "application/json" := by
  unfold wxRequestHeader hdrLookup
  by_cases hA : c.auth = true
  · simp [hA, List.foldl_append]
  · have hA2 : c.auth = false := by revert hA; cases c.auth <;> simp
    simp [hA2, List.foldl_append]

lemma wxRequestHeader_auth_empty {c : FinalConfig} (st : AuthStore) (h : c.auth = false) :
    hdrLookup (wxRequestHeader c st).1 "Authorization" = some "" := by
  unfold wxRequestHeader hdrLookup
  simp [h, List.foldl_append]

lemma observeAll_refreshing :
    ∀ (cs : List FinalConfig) (s : OrchState), s.isRefreshing = true →
      observeAll cs s =
        ({ s with retryQueue := s.retryQueue ++ cs },
         cs.map RefreshEv.enqueue, List.replicate cs.length false) := by
  intro cs
  induction cs with
  | nil =>
    intro s h
    cases s
    simp [observeAll]
  | cons c rest ih =>
    intro s h
    unfold observeAll expireBegin
    simp [h, ih, List.replicate_succ]

/-! ## Event predicates and concrete fixtures -/

/-- Holds of the event resetting the single-flight flag to false. -/
def isSetFalseEv : RefreshEv → Bool
  | RefreshEv.setRefreshing b => !b
  | _ => false

/-- Holds of the event clearing the retry queue. -/
def isClearQueueEv : RefreshEv → Bool
  | RefreshEv.clearQueue => true
  | _ => false

/-- Holds of a queued-request resubmission event. -/
def isResubmitEv : RefreshEv → Bool
  | RefreshEv.resubmit _ => true
  | _ => false

/-- Holds of a Refresh Flow invocation event. -/
def isRefreshCallEv : RefreshEv → Bool
  | RefreshEv.refreshCall => true
  | _ => false

/-- The config a resubmission event carries. -/
def resubmitCfg : RefreshEv → Option FinalConfig
  | RefreshEv.resubmit c => some c
  | _ => none

/-- An oracle whose transport always fails and whose Login Flow fails. -/
def envFailS : SendEnv String :=
  { send := fun _ => Except.error "network down"
    loginResult := Except.error "login failed" }

/-- An oracle whose sends always report an expired credential. -/
def env401S : SendEnv String :=
  { send := fun _ => Except.ok { code := 401, data := "x", message := "expired" }
    loginResult := Except.ok "LT" }

/-- An oracle whose sends always succeed with a code-200 envelope. -/
def env200S : SendEnv String :=
  { send := fun _ => Except.ok { code := 200, data := "payload", message := "ok" }
    loginResult := Except.ok "LT" }

/-- A caller config leaving every orchestration flag at its default. -/
def cfgDefault : RequestConfig := { url := "/user/info" }

/-- A caller config turning authentication off. -/
def cfgNoAuth : RequestConfig := { url := "/auth/login", auth := some false }

/-- A caller config with an explicit retry bound of 2. -/
def cfgRetry2 : RequestConfig := { url := "/user/info", auth := some false, retry := some 2 }

/-- A caller config explicitly passing retry = 0. -/
def cfgRetry0 : RequestConfig := { url := "/user/info", auth := some false, retry := some 0 }

/-- An empty credential store: no in-memory token, no persisted token. -/
def store0 : AuthStore := { token := "", storage := none }

/-- A credential store holding the token old in memory and storage. -/
def storeOld : AuthStore := { token := "old", storage := some "old" }

/-- A merged config used as the originating request of a refresh. -/
def fc7 : FinalConfig :=
  { url := "/user/info", header := [], loading := false, auth := true, retry := 3 }

/-- A merged config standing for a queued request. -/
def fc7q : FinalConfig :=
  { url := "/queued", header := [], loading := false, auth := true, retry := 3 }

/-- Orchestrator state with one queued request and no refresh in flight. -/
def s7 : OrchState := { isRefreshing := false, retryQueue := [fc7q], store := storeOld }

/-- The event trace of a successful refresh run from s7. -/
def tr7 : List RefreshEv := (handleTokenExpired (Except.ok "T2") fc7 s7).2.1

/-! ## Claim theorems -/

/-- C10: for every outgoing transport request, the Content-Type header is
set to application/json, overriding any Content-Type the caller supplied
in config.header, because the fixed headers are spread after the caller
headers. -/
theorem c10_content_type_override (c : FinalConfig) (st : AuthStore) :
    hdrLookup (wxRequestHeader c st).1 "Content-Type" = some "application/json" :=
  wxRequestHeader_ct c st

/-- C4 counterexample: for a merged config with auth=false, the header
object of the outgoing transport request does contain an Authorization
entry (with the empty string as value), so the claim that no Authorization
header is attached fails at this input. -/
theorem c4_counterexample :
    hdrLookup (wxRequestHeader (mergeConfig cfgNoAuth) store0).1 "Authorization" = some "" ∧
    ¬ hdrLookup (wxRequestHeader (mergeConfig cfgNoAuth) store0).1 "Authorization" = none := by
  constructor <;> decide

/-- The n-th send does not resolve with a code-401 envelope: a transport
failure, or an envelope whose code is not 401. A 401 is the one outcome
that hands the call (even an auth=false call) to the Refresh Flow, whose
refreshToken reads the store (line 83) and writes or clears it (lines
86 and 89). -/
def sendNot401 {T : Type} (env : SendEnv T) (n : Nat) : Prop :=
  match env.send n with
  | Except.error _ => True
  | Except.ok envl => envl.code ≠ 401

lemma outOf_not_expired {T : Type} (env : SendEnv T) (n : Nat) (h : sendNot401 env n) :
    outOf env n ≠ AttemptOut.expired := by
  unfold outOf
  unfold sendNot401 at h
  cases hs : env.send n with
  | error e => simp
  | ok envl =>
    rw [hs] at h
    by_cases h2 : envl.code = 200
    · simp [h2]
    · simp [h2, h]

lemma handleRequestGo_noauth_no401 {T : Type} (env : SendEnv T) {c : FinalConfig}
    (h : c.auth = false) (hs : ∀ n, sendNot401 env n) :
    ∀ rem si st, (handleRequestGo env c rem si st).outcome ≠ ReqOutcome.handedToRefresh ∧
      (handleRequestGo env c rem si st).store = st ∧
      (handleRequestGo env c rem si st).storeOps = 0 ∧
      (handleRequestGo env c rem si st).logins = 0 := by
  intro rem
  induction rem with
  | zero =>
    intro si st
    unfold handleRequestGo
    rw [attemptOnce_noauth env si st h]
    cases ho : outOf env si with
    | ok envl => simp
    | expired => exact absurd ho (outOf_not_expired env si (hs si))
    | err e => simp
  | succ n ih =>
    intro si st
    unfold handleRequestGo
    rw [attemptOnce_noauth env si st h]
    cases ho : outOf env si with
    | ok envl => simp
    | expired => exact absurd ho (outOf_not_expired env si (hs si))
    | err e => simp [ih]

/-- C4 amended: for every request whose merged config has auth=false and
none of whose sends resolves with a code-401 envelope, no credential-store
operation (getToken, setToken, clearToken) and no Login Flow invocation
occurs during the call — the composed call never enters the Refresh Flow
(empty refresh-event trace) and leaves the store untouched — and the
outgoing Authorization header is attached with the empty-string value
rather than omitted. (The 401 proviso is needed: a 401 envelope hands
even an auth=false call to refreshToken, which reads and writes or clears
the store.) -/
theorem c4_amended {T : Type} (env : SendEnv T) (refreshRes : Except String String)
    (c : RequestConfig) (s : OrchState)
    (h : (mergeConfig c).auth = false) (hs : ∀ n, sendNot401 env n) :
    (request env c s.store).storeOps = 0 ∧
    (request env c s.store).logins = 0 ∧
    (requestWithRefresh env refreshRes c s).refreshEvs = [] ∧
    (requestWithRefresh env refreshRes c s).orch.store = s.store ∧
    hdrLookup (wxRequestHeader (mergeConfig c) s.store).1 "Authorization" = some "" := by
  obtain ⟨hne, hst, hops, hlog⟩ :=
    handleRequestGo_noauth_no401 env h hs (effectiveRetry (mergeConfig c)) 0 s.store
  refine ⟨hops, hlog, ?_, ?_, wxRequestHeader_auth_empty s.store h⟩ <;>
  · simp only [requestWithRefresh, handleRequest]
    cases ho : (handleRequestGo env (mergeConfig c) (effectiveRetry (mergeConfig c)) 0
        s.store).outcome with
    | success envl => simp [hst]
    | failure e => simp [hst]
    | handedToRefresh => exact absurd ho hne

/-- C4 witness: the amended statement evaluated on a concrete auth=false
request against a failing transport (no send yields a 401). -/
theorem c4_witness :
    (request envFailS cfgNoAuth store0).storeOps = 0 ∧
    (request envFailS cfgNoAuth store0).logins = 0 ∧
    (requestWithRefresh envFailS (Except.ok "T2") cfgNoAuth
        (OrchState.mk false [] store0)).refreshEvs = [] ∧
    (requestWithRefresh envFailS (Except.ok "T2") cfgNoAuth
        (OrchState.mk false [] store0)).orch.store = store0 ∧
    hdrLookup (wxRequestHeader (mergeConfig cfgNoAuth) store0).1 "Authorization" = some "" :=
  c4_amended envFailS (Except.ok "T2") cfgNoAuth (OrchState.mk false [] store0)
    (by decide) (fun n => by simp [sendNot401, envFailS])

/-- C8 counterexample: with an empty in-memory token and empty persistent
storage, two consecutive getToken calls access persistent storage twice,
so the storage load is not performed exactly once and later calls do
access storage again after the first load. -/
theorem c8_counterexample :
    (getTokenCalls 2 (AuthStore.mk "" none)).2 = 2 ∧
    ¬ (getTokenCalls 2 (AuthStore.mk "" none)).2 ≤ 1 := by
  constructor <;> decide

/-- C8 amended: getToken returns the in-memory token without storage
access when it is nonempty; with an empty in-memory token it loads the
storage value and caches it; once a nonempty token has been loaded no
further storage access occurs over any number of calls; but when storage
holds no token, every call reads storage again (one access per call). -/
theorem c8_amended (st : AuthStore) (n : Nat) (t : String) :
    (st.token ≠ "" → st.getToken = (st.token, st, false) ∧ getTokenCalls n st = (st, 0)) ∧
    (st.token = "" →
      st.getToken = (wxGetStorageSync st.storage,
        { token := wxGetStorageSync st.storage, storage := st.storage }, true)) ∧
    (st.token = "" → st.storage = some t → t ≠ "" → (getTokenCalls (n + 1) st).2 = 1) ∧
    (st.token = "" → st.storage = none → (getTokenCalls n st).2 = n) := by
  refine ⟨fun h => ⟨getToken_nonempty h, getTokenCalls_cached h n⟩, fun h => ?_,
    fun h hsome hne => ?_, fun h hnone => ?_⟩
  · rw [getToken_empty h]
  · obtain ⟨tok, stor⟩ := st
    simp only at h
    subst h
    subst hsome
    unfold getTokenCalls
    rw [getToken_empty rfl]
    have hwx : wxGetStorageSync (some t) = t := rfl
    simp only [hwx]
    simp [@getTokenCalls_cached (AuthStore.mk t (some t)) hne]
  · obtain ⟨tok, stor⟩ := st
    simp only at h
    subst h
    subst hnone
    rw [getTokenCalls_none n none rfl]

/-- C8 witness: the amended statement evaluated on a store whose storage
holds the nonempty token T1: three calls make exactly one storage access. -/
theorem c8_witness : (getTokenCalls 3 (AuthStore.mk "" (some "T1"))).2 = 1 :=
  (c8_amended (AuthStore.mk "" (some "T1")) 2 "T1").2.2.1 rfl rfl (by decide)

/-- C3: a request whose merged retry bound is 2 and whose sends always
fail (transport failure, or an envelope coded neither 200 nor 401) makes
exactly 3 send attempts and then fails with the error of the last attempt:
the underlying transport error, or a failure carrying the envelope
message. -/
theorem c3_retry_exhaustion {T : Type} (env : SendEnv T) (c : RequestConfig) (st : AuthStore)
    (hretry : c.retry = some 2)
    (hauth : (mergeConfig c).auth = false ∨ ((mergeConfig c).auth = true ∧ st.token ≠ ""))
    (hsend : ∀ n, sendFails env n) :
    (request env c st).sends = 3 ∧
    (request env c st).outcome = ReqOutcome.failure (errOf env 2) := by
  have hB : effectiveRetry (mergeConfig c) = 2 := by
    unfold effectiveRetry mergeConfig
    rw [hretry]
    rfl
  unfold request handleRequest
  rw [hB]
  rcases hauth with h | ⟨h, ht⟩
  · have hatt : ∀ si, attemptOnce env (mergeConfig c) si st =
        (AttemptOut.err (errOf env si), st, 1, 0, 0) := fun si => by
      rw [attemptOnce_noauth env si st h, outOf_err env si (hsend si)]
    rw [handleRequestGo_allErr env (mergeConfig c) st (errOf env) 1 0 0 hatt 2 0]
    exact ⟨rfl, rfl⟩
  · have hatt : ∀ si, attemptOnce env (mergeConfig c) si st =
        (AttemptOut.err (errOf env si), st, 1, 0, 2) := fun si => by
      rw [attemptOnce_tok env si h ht, outOf_err env si (hsend si)]
    rw [handleRequestGo_allErr env (mergeConfig c) st (errOf env) 1 0 2 hatt 2 0]
    exact ⟨rfl, rfl⟩

/-- C3 witness: a concrete retry=2 request against an always-failing
transport makes 3 sends and fails with the transport error. -/
theorem c3_witness :
    (request envFailS cfgRetry2 store0).sends = 3 ∧
    (request envFailS cfgRetry2 store0).outcome = ReqOutcome.failure (errOf envFailS 2) :=
  c3_retry_exhaustion envFailS cfgRetry2 store0 rfl (Or.inl (by decide))
    (fun n => by simp [sendFails, envFailS])

/-- C9: a caller explicitly passing retry=0 survives the merge with
retry=0, but the falsy-or bound of line 138 turns 0 into MAX_RETRY_COUNT
= 3, so against always-failing sends 4 send attempts occur in total. -/
theorem c9_retry_zero_default {T : Type} (env : SendEnv T) (c : RequestConfig) (st : AuthStore)
    (hretry : c.retry = some 0)
    (hauth : (mergeConfig c).auth = false ∨ ((mergeConfig c).auth = true ∧ st.token ≠ ""))
    (hsend : ∀ n, sendFails env n) :
    (mergeConfig c).retry = 0 ∧
    effectiveRetry (mergeConfig c) = MAX_RETRY_COUNT ∧
    (request env c st).sends = 4 ∧
    (request env c st).outcome = ReqOutcome.failure (errOf env 3) := by
  have hm : (mergeConfig c).retry = 0 := by
    unfold mergeConfig
    rw [hretry]
    rfl
  have hB : effectiveRetry (mergeConfig c) = MAX_RETRY_COUNT := by
    unfold effectiveRetry
    rw [hm]
    rfl
  refine ⟨hm, hB, ?_⟩
  unfold request handleRequest
  rw [hB]
  rcases hauth with h | ⟨h, ht⟩
  · have hatt : ∀ si, attemptOnce env (mergeConfig c) si st =
        (AttemptOut.err (errOf env si), st, 1, 0, 0) := fun si => by
      rw [attemptOnce_noauth env si st h, outOf_err env si (hsend si)]
    rw [handleRequestGo_allErr env (mergeConfig c) st (errOf env) 1 0 0 hatt MAX_RETRY_COUNT 0]
    exact ⟨rfl, rfl⟩
  · have hatt : ∀ si, attemptOnce env (mergeConfig c) si st =
        (AttemptOut.err (errOf env si), st, 1, 0, 2) := fun si => by
      rw [attemptOnce_tok env si h ht, outOf_err env si (hsend si)]
    rw [handleRequestGo_allErr env (mergeConfig c) st (errOf env) 1 0 2 hatt MAX_RETRY_COUNT 0]
    exact ⟨rfl, rfl⟩

/-- C9 witness: a concrete retry=0 request against an always-failing
transport is attempted 4 times. -/
theorem c9_witness :
    (mergeConfig cfgRetry0).retry = 0 ∧
    effectiveRetry (mergeConfig cfgRetry0) = MAX_RETRY_COUNT ∧
    (request envFailS cfgRetry0 store0).sends = 4 ∧
    (request envFailS cfgRetry0 store0).outcome = ReqOutcome.failure (errOf envFailS 3) :=
  c9_retry_zero_default envFailS cfgRetry0 store0 rfl (Or.inl (by decide))
    (fun n => by simp [sendFails, envFailS])

/-- C5 counterexample: with an absent credential and a Login Flow that
always fails, a request with the default config runs the Login Flow 4
times (the catch of line 136 retries the whole attempt, login included,
up to the retry bound), so the login error is not surfaced immediately
after a single login attempt. -/
theorem c5_counterexample :
    (request envFailS cfgDefault store0).logins = 4 ∧
    ¬ (request envFailS cfgDefault store0).logins = 1 := by
  constructor <;> decide

/-- C5 amended: when the Login Flow fails, the error is caught by the
retry path of the orchestrator, which re-attempts the request (re-running
the Login Flow each time) until the retry bound is exhausted; only then is
the LoginError surfaced to the caller, after bound+1 login attempts and
zero sends. -/
theorem c5_amended {T : Type} (env : SendEnv T) (c : RequestConfig) (st : AuthStore)
    (e : String)
    (hauth : (mergeConfig c).auth = true)
    (ht : st.token = "") (hs : wxGetStorageSync st.storage = "")
    (hlogin : env.loginResult = Except.error e) :
    (request env c st).outcome = ReqOutcome.failure (ReqError.loginError e) ∧
    (request env c st).logins = effectiveRetry (mergeConfig c) + 1 ∧
    (request env c st).sends = 0 := by
  have hatt : ∀ si, attemptOnce env (mergeConfig c) si st =
      (AttemptOut.err (ReqError.loginError e), st, 0, 1, 1) := fun si =>
    attemptOnce_loginFail env si hauth ht hs hlogin
  unfold request handleRequest
  rw [handleRequestGo_allErr env (mergeConfig c) st (fun _ => ReqError.loginError e)
    0 1 1 hatt (effectiveRetry (mergeConfig c)) 0]
  refine ⟨rfl, by simp, by simp⟩

/-- C5 witness: the amended statement evaluated on a concrete default
request with empty store and failing login. -/
theorem c5_witness :
    (request envFailS cfgDefault store0).outcome =
      ReqOutcome.failure (ReqError.loginError "login failed") ∧
    (request envFailS cfgDefault store0).logins =
      effectiveRetry (mergeConfig cfgDefault) + 1 ∧
    (request envFailS cfgDefault store0).sends = 0 :=
  c5_amended envFailS cfgDefault store0 "login failed" (by decide) rfl rfl rfl

lemma handleRequestGo_ok {T : Type} (env : SendEnv T) (c : FinalConfig) (rem si : Nat)
    (st : AuthStore) (envl : ResponseData T)
    (h1 : (attemptOnce env c si st).1 = AttemptOut.ok envl) :
    handleRequestGo env c rem si st =
      ⟨ReqOutcome.success envl, (attemptOnce env c si st).2.1,
       (attemptOnce env c si st).2.2.1, (attemptOnce env c si st).2.2.2.1,
       (attemptOnce env c si st).2.2.2.2⟩ := by
  have hX : attemptOnce env c si st =
      (AttemptOut.ok envl, (attemptOnce env c si st).2.1,
       (attemptOnce env c si st).2.2.1, (attemptOnce env c si st).2.2.2.1,
       (attemptOnce env c si st).2.2.2.2) := by
    rw [← h1]
  unfold handleRequestGo
  rw [hX]

lemma handleRequestGo_expired {T : Type} (env : SendEnv T) (c : FinalConfig) (rem si : Nat)
    (st : AuthStore)
    (h1 : (attemptOnce env c si st).1 = AttemptOut.expired) :
    handleRequestGo env c rem si st =
      ⟨ReqOutcome.handedToRefresh, (attemptOnce env c si st).2.1,
       (attemptOnce env c si st).2.2.1, (attemptOnce env c si st).2.2.2.1,
       (attemptOnce env c si st).2.2.2.2⟩ := by
  have hX : attemptOnce env c si st =
      (AttemptOut.expired, (attemptOnce env c si st).2.1,
       (attemptOnce env c si st).2.2.1, (attemptOnce env c si st).2.2.2.1,
       (attemptOnce env c si st).2.2.2.2) := by
    rw [← h1]
  unfold handleRequestGo
  rw [hX]

lemma countP_map_false {α β : Type} (f : α → β) (p : β → Bool)
    (h : ∀ a, p (f a) = false) :
    ∀ l : List α, (l.map f).countP p = 0 := by
  intro l
  induction l with
  | nil => rfl
  | cons a t ih => simp [List.countP_cons, h, ih]

lemma filterMap_resubmit_map (cs : List FinalConfig) :
    (cs.map RefreshEv.resubmit).filterMap resubmitCfg = cs := by
  induction cs with
  | nil => rfl
  | cons a t ih => simp [List.filterMap_cons, resubmitCfg, ih]

/-- C6: a request whose first send resolves with a code-200 envelope
returns that envelope unchanged, with exactly one send, no Refresh Flow
activity and no refresh events. -/
theorem c6_success_immediate {T : Type} (env : SendEnv T) (refreshRes : Except String String)
    (c : RequestConfig) (s : OrchState) (envl : ResponseData T)
    (hreach : reachesSend env (mergeConfig c) s.store)
    (hsend : env.send 0 = Except.ok envl) (hcode : envl.code = 200) :
    (requestWithRefresh env refreshRes c s).outcome = FlowOutcome.success envl ∧
    (requestWithRefresh env refreshRes c s).sends = 1 ∧
    (requestWithRefresh env refreshRes c s).refreshEvs = [] := by
  obtain ⟨h1, h2⟩ := @attemptOnce_reach_proj T env (mergeConfig c) 0 s.store hreach
  have hout : outOf env 0 = AttemptOut.ok envl := by
    unfold outOf
    rw [hsend]
    simp [hcode]
  have hgo := handleRequestGo_ok env (mergeConfig c) (effectiveRetry (mergeConfig c)) 0
    s.store envl (h1.trans hout)
  simp only [requestWithRefresh, handleRequest]
  rw [hgo]
  simp [h2]

/-- C6 witness: a concrete request whose first send succeeds with code
200 returns the envelope with one send and no refresh events. -/
theorem c6_witness :
    (requestWithRefresh env200S (Except.ok "T9") cfgDefault
        (OrchState.mk false [] storeOld)).outcome =
      FlowOutcome.success { code := 200, data := "payload", message := "ok" } ∧
    (requestWithRefresh env200S (Except.ok "T9") cfgDefault
        (OrchState.mk false [] storeOld)).sends = 1 ∧
    (requestWithRefresh env200S (Except.ok "T9") cfgDefault
        (OrchState.mk false [] storeOld)).refreshEvs = [] :=
  c6_success_immediate env200S (Except.ok "T9") cfgDefault (OrchState.mk false [] storeOld)
    { code := 200, data := "payload", message := "ok" }
    (Or.inr (Or.inl (by decide))) rfl rfl

/-- C2: when a 401 triggers a Refresh Flow that fails, the triggering
request fails with the refresh error after its single send (the handoff
of line 132 is returned without await, so the rejection bypasses the
retry catch), the credential store ends cleared, isRefreshing is reset to
false, and the retry queue is discarded with no entry ever resubmitted. -/
theorem c2_refresh_failure {T : Type} (env : SendEnv T) (c : RequestConfig) (s : OrchState)
    (envl : ResponseData T) (e : String)
    (hflag : s.isRefreshing = false)
    (hreach : reachesSend env (mergeConfig c) s.store)
    (hsend : env.send 0 = Except.ok envl) (hcode : envl.code = 401) :
    (requestWithRefresh env (Except.error e) c s).outcome =
      FlowOutcome.failure (ReqError.refreshError e) ∧
    (requestWithRefresh env (Except.error e) c s).sends = 1 ∧
    (requestWithRefresh env (Except.error e) c s).orch.store = AuthStore.mk "" none ∧
    (requestWithRefresh env (Except.error e) c s).orch.isRefreshing = false ∧
    (requestWithRefresh env (Except.error e) c s).orch.retryQueue = [] ∧
    (requestWithRefresh env (Except.error e) c s).refreshEvs =
      [RefreshEv.setRefreshing true, RefreshEv.refreshCall, RefreshEv.refreshClearToken,
       RefreshEv.setRefreshing false, RefreshEv.clearQueue] := by
  obtain ⟨h1, h2⟩ := @attemptOnce_reach_proj T env (mergeConfig c) 0 s.store hreach
  have hout : outOf env 0 = AttemptOut.expired := by
    unfold outOf
    rw [hsend]
    simp [hcode]
  have hgo := handleRequestGo_expired env (mergeConfig c) (effectiveRetry (mergeConfig c)) 0
    s.store (h1.trans hout)
  simp only [requestWithRefresh, handleRequest]
  rw [hgo]
  simp only [handleTokenExpired, expireBegin, expireComplete]
  simp [hflag, h2, AuthStore.clearToken]

/-- C2 witness: a concrete authenticated request receiving 401 while no
refresh is in flight, with a failing Refresh Flow. -/
theorem c2_witness :
    (requestWithRefresh env401S (Except.error "refresh denied") cfgDefault
        (OrchState.mk false [] storeOld)).outcome =
      FlowOutcome.failure (ReqError.refreshError "refresh denied") ∧
    (requestWithRefresh env401S (Except.error "refresh denied") cfgDefault
        (OrchState.mk false [] storeOld)).sends = 1 ∧
    (requestWithRefresh env401S (Except.error "refresh denied") cfgDefault
        (OrchState.mk false [] storeOld)).orch.store = AuthStore.mk "" none ∧
    (requestWithRefresh env401S (Except.error "refresh denied") cfgDefault
        (OrchState.mk false [] storeOld)).orch.isRefreshing = false ∧
    (requestWithRefresh env401S (Except.error "refresh denied") cfgDefault
        (OrchState.mk false [] storeOld)).orch.retryQueue = [] ∧
    (requestWithRefresh env401S (Except.error "refresh denied") cfgDefault
        (OrchState.mk false [] storeOld)).refreshEvs =
      [RefreshEv.setRefreshing true, RefreshEv.refreshCall, RefreshEv.refreshClearToken,
       RefreshEv.setRefreshing false, RefreshEv.clearQueue] :=
  c2_refresh_failure env401S cfgDefault (OrchState.mk false [] storeOld)
    { code := 401, data := "x", message := "expired" } "refresh denied"
    rfl (Or.inr (Or.inl (by decide))) rfl rfl

/-- C7 counterexample: in the successful refresh trace from a state with
one queued request, the isRefreshing reset (index 3) happens before the
queue drain (index 4) and the queue clear (index 5), so the claimed order
(drain, clear, then reset) fails at this input. -/
theorem c7_counterexample :
    tr7.findIdx isSetFalseEv = 3 ∧
    tr7.findIdx isResubmitEv = 4 ∧
    tr7.findIdx isClearQueueEv = 5 ∧
    ¬ tr7.findIdx isClearQueueEv < tr7.findIdx isSetFalseEv := by
  refine ⟨?_, ?_, ?_, ?_⟩ <;> decide

/-- C7 amended: on a successful refresh triggered while no refresh was in
flight, the events occur in this order: isRefreshing is set, the Refresh
Flow runs and stores the new token, isRefreshing is reset to false, then
the retry queue is drained in FIFO order (each entry resubmitted as a
brand-new request call), then the queue is cleared, and only then is the
originating request retried as a new request call. -/
theorem c7_amended (tok : String) (c : FinalConfig) (s : OrchState)
    (h : s.isRefreshing = false) :
    handleTokenExpired (Except.ok tok) c s =
      ( { isRefreshing := false, retryQueue := [], store := s.store.setToken tok },
        [RefreshEv.setRefreshing true, RefreshEv.refreshCall,
         RefreshEv.refreshSetToken tok, RefreshEv.setRefreshing false]
          ++ s.retryQueue.map RefreshEv.resubmit
          ++ [RefreshEv.clearQueue, RefreshEv.retryOwn c],
        ExpiredResult.retriedOwn c ) := by
  unfold handleTokenExpired expireBegin expireComplete
  simp [h]

/-- C7 witness: the amended trace shape evaluated on the concrete state
with one queued request. -/
theorem c7_witness :
    (handleTokenExpired (Except.ok "T2") fc7 s7).2.2 = ExpiredResult.retriedOwn fc7 := by
  rw [c7_amended "T2" fc7 s7 rfl]

/-- Entry of the first 401 into the refresh protocol from an idle
orchestrator state. -/
def c1Begin (st : AuthStore) (c0 : FinalConfig) : OrchState × List RefreshEv × Bool :=
  expireBegin c0 (OrchState.mk false [] st)

/-- The later 401 observations arriving while the first refresh is in
flight. -/
def c1Observe (st : AuthStore) (c0 : FinalConfig) (cs : List FinalConfig) :
    OrchState × List RefreshEv × List Bool :=
  observeAll cs (c1Begin st c0).1

/-- Completion of the single refresh once its flow resolves with a new
token. -/
def c1Complete (st : AuthStore) (c0 : FinalConfig) (cs : List FinalConfig) (tok : String) :
    OrchState × List RefreshEv × ExpiredResult :=
  expireComplete (Except.ok tok) c0 (c1Observe st c0 cs).1

/-- C1: when N concurrent requests all observe a 401 while no refresh is
in progress, the first starts the single Refresh Flow (setting
isRefreshing), every later one is enqueued as a deferred closure without
starting another refresh (isRefreshing stays true for the whole window,
so no two refresh executions overlap and exactly one refreshCall event
occurs), and on success every queued request is resubmitted in FIFO order
followed by the originating request, all against the stored refreshed
token. -/
theorem c1_single_flight (st : AuthStore) (c0 : FinalConfig) (cs : List FinalConfig)
    (tok : String) :
    (c1Begin st c0).2.2 = true ∧
    (c1Observe st c0 cs).2.2 = List.replicate cs.length false ∧
    (c1Observe st c0 cs).1.isRefreshing = true ∧
    (c1Observe st c0 cs).1.retryQueue = cs ∧
    (c1Observe st c0 cs).2.1 = cs.map RefreshEv.enqueue ∧
    ((c1Begin st c0).2.1 ++ (c1Observe st c0 cs).2.1 ++
      (c1Complete st c0 cs tok).2.1).countP isRefreshCallEv = 1 ∧
    (c1Complete st c0 cs tok).2.1.filterMap resubmitCfg = cs ∧
    (c1Complete st c0 cs tok).2.2 = ExpiredResult.retriedOwn c0 ∧
    (c1Complete st c0 cs tok).1.store.token = tok ∧
    (c1Complete st c0 cs tok).1.isRefreshing = false ∧
    (c1Complete st c0 cs tok).1.retryQueue = [] := by
  have hb : c1Begin st c0 =
      (OrchState.mk true [] st,
       [RefreshEv.setRefreshing true, RefreshEv.refreshCall], true) := rfl
  have ho : c1Observe st c0 cs =
      (OrchState.mk true cs st, cs.map RefreshEv.enqueue,
       List.replicate cs.length false) := by
    show observeAll cs (OrchState.mk true [] st) = _
    rw [observeAll_refreshing cs (OrchState.mk true [] st) rfl]
    simp
  have hc : c1Complete st c0 cs tok =
      (OrchState.mk false [] (st.setToken tok),
       [RefreshEv.refreshSetToken tok, RefreshEv.setRefreshing false]
         ++ cs.map RefreshEv.resubmit ++ [RefreshEv.clearQueue, RefreshEv.retryOwn c0],
       ExpiredResult.retriedOwn c0) := by
    unfold c1Complete
    rw [ho]
    rfl
  rw [hb, ho, hc]
  refine ⟨rfl, rfl, rfl, rfl, rfl, ?_, ?_, rfl, rfl, rfl, rfl⟩
  · simp [List.countP_append, List.countP_cons, List.countP_nil, isRefreshCallEv,
      countP_map_false RefreshEv.enqueue isRefreshCallEv (fun _ => rfl),
      countP_map_false RefreshEv.resubmit isRefreshCallEv (fun _ => rfl)]
  · simp only [List.filterMap_append, filterMap_resubmit_map, List.filterMap_cons,
      resubmitCfg, List.filterMap_nil]
    simp
